import Mathlib

/-!
Verification of the SheinVerseMenStock stock-monitor repository.

The repository consists of several near-duplicate JavaScript programs that
poll a product listing, diff the observed counts against a persisted
snapshot file, and push updates to a messaging channel.  The definitions
below are shallow embeddings of the functions those programs contain:

* `calculateDiff`, `MonitorA.diffFields`  — monitor.js (first program),
  lines 182-217: added/removed counts, with the diff skipped entirely
  when no prior snapshot entry exists.
* `Gated.diffFields`, `newItems`          — part_000 (second program),
  lines 413-436: prior defaults to the `{ totalItems: 0, links: [] }`
  baseline; newly added links are `current.links.filter(l => !previous.links.includes(l))`.
* `crossedUp`, `alertTrace`               — monitor.js (second program),
  lines 542-548: the threshold rising-edge alert, where the previous
  count is `snapshot?.MEN_FILTERED?.totalItems || 0`.
-/

/-- A category snapshot as produced by the scraper: the parsed total count
and the list of product links (monitor.js `{ totalItems, links }`). -/
structure Snap where
  totalItems : Nat
  links : List String
  deriving DecidableEq, Repr

/-- monitor.js lines 182-187: `calculateDiff(oldCount, newCount)` returns
`{ added: Math.max(0, newCount - oldCount), removed: Math.max(0, oldCount - newCount) }`.
JavaScript subtraction on these integer counts is exact, so it is modelled
over `Int`. -/
def calculateDiff (oldCount newCount : Int) : Int × Int :=
  (max 0 (newCount - oldCount), max 0 (oldCount - newCount))

namespace MonitorA

/-- monitor.js lines 205-217: `previous = snapshot[category.key]`; the diff
runs only when `previous?.totalItems !== undefined`, otherwise `added` and
`removed` keep their initial value `0`. -/
def diffFields (prevTotal : Option Nat) (curTotal : Nat) : Int × Int :=
  match prevTotal with
  | some p => calculateDiff p curTotal
  | none => (0, 0)

end MonitorA

/-- part_000 lines 434-436: `current.links.filter(l => !previous.links.includes(l))`.
Keeps exactly the current links that do not occur among the prior links, in
their order of appearance in `current`. -/
def newItems (priorItems currentItems : List String) : List String :=
  currentItems.filter (fun l => !priorItems.contains l)

namespace Gated

/-- part_000 lines 413-416 (second program): missing prior state defaults
to the `{ totalItems: 0, links: [] }` baseline, and added/removed are the
clamped count differences; together with the `newItems` filter of lines
434-436 this is the per-category diff of that variant. -/
def diffFields (prev : Option Snap) (current : Snap) : Int × Int × List String :=
  let p := prev.getD ⟨0, []⟩
  (max 0 ((current.totalItems : Int) - (p.totalItems : Int)),
   max 0 ((p.totalItems : Int) - (current.totalItems : Int)),
   newItems p.links current.links)

end Gated

/-- monitor.js lines 542-546 (second program): the previous filtered count
is `snapshot?.MEN_FILTERED?.totalItems || 0` (so a missing entry reads as
`0`) and `crossedUp` is `previous < threshold && current >= threshold`. -/
def crossedUp (threshold : Nat) (prevTotal : Option Nat) (currentTotal : Nat) : Bool :=
  decide (prevTotal.getD 0 < threshold) && decide (threshold ≤ currentTotal)

/-- Per-cycle evolution of the alert: each cycle evaluates `crossedUp`
against the persisted previous count and then persists the current count
(monitor.js line 570 `saveSnapshot(newSnapshot)`), which becomes the next
cycle's previous count. -/
def alertTrace (threshold : Nat) : Option Nat → List Nat → List Bool
  | _, [] => []
  | prev, c :: rest => crossedUp threshold prev c :: alertTrace threshold (some c) rest

/-- C1 counterexample: on a cold start (no persisted state) with current
count 50 and threshold 30, the alert DOES fire, because the missing
previous count is read as 0 by `|| 0`, contradicting the claim that no
alert fires on the very first cycle. -/
theorem alert_cold_start_fires :
    crossedUp 30 none 50 = true ∧ alertTrace 30 none [50] = [true] := by
  decide

/-- C1 (amended): the alert fires iff the persisted previous count is
below the threshold and the current count is at/above it, where a missing
previous count behaves exactly like a persisted count of 0 (so a cold
start at/above the threshold fires); on the count sequence
[10, 20, 35, 40, 25, 32] with threshold 30 it fires exactly on the
crossings 20→35 and 25→32, never while the count stays above and never on
a fall. -/
theorem alert_rising_edge_default_zero (threshold prev current : Nat) :
    (crossedUp threshold (some prev) current = true ↔
      (prev < threshold ∧ threshold ≤ current)) ∧
    (crossedUp threshold none current = crossedUp threshold (some 0) current) ∧
    (alertTrace 30 none [10, 20, 35, 40, 25, 32] =
      [false, false, true, false, false, true]) := by
  refine ⟨?_, rfl, by decide⟩
  simp [crossedUp]

/-- Concrete instance of the amended C1 statement: the alert fires on the
crossing from 20 to 35 with threshold 30. -/
theorem alert_rising_edge_default_zero_witness :
    crossedUp 30 (some 20) 35 = true :=
  (alert_rising_edge_default_zero 30 20 35).1.mpr (by decide)

/-- C4 counterexample: in the monitor.js cycle a category with no
persisted prior state reports `added = 0`, not `added = current.totalCount`:
with current count 50 the reported pair is (0, 0) and 0 ≠ 50. -/
theorem monitorA_missing_prior_added_zero :
    MonitorA.diffFields none 50 = (0, 0) ∧ (0 : Int) ≠ 50 := by
  exact ⟨rfl, by decide⟩

/-- C4 (amended): only the part_000 gated variant substitutes the empty
baseline `{totalCount: 0, items: []}` for a missing prior, so its
first-ever observation reports added = current.totalCount, removed = 0 and
newItems = all current items; the monitor.js variants instead skip the
diff for a missing prior and report added = 0 and removed = 0. -/
theorem missing_prior_baseline_diff (cur : Nat) (links : List String) :
    Gated.diffFields none ⟨cur, links⟩ = ((cur : Int), 0, links) ∧
    MonitorA.diffFields none cur = (0, 0) := by
  constructor
  · simp [Gated.diffFields, newItems, List.filter_eq_self]
  · rfl

/-- C8: the newly-added item list contains exactly the current items that
are absent from the prior items, preserves their relative order in
`current` (it is a sublist of `current`), and depends on the prior list
only through membership, not through its ordering or multiplicity. -/
theorem newItems_membership_order (prior current : List String) :
    (∀ x, x ∈ newItems prior current ↔ (x ∈ current ∧ x ∉ prior)) ∧
    (newItems prior current).Sublist current ∧
    (∀ prior2, (∀ x, x ∈ prior2 ↔ x ∈ prior) →
      newItems prior2 current = newItems prior current) := by
  refine ⟨fun x => ?_, List.filter_sublist _, fun prior2 h => ?_⟩
  · simp [newItems, List.mem_filter, List.elem_iff]
  · simp only [newItems]
    apply List.filter_congr
    intro a _
    simp [List.elem_iff, h a]

/-- Concrete instance of C8: with prior = ["b", "a"] and
current = ["a", "c", "b", "d"], the new items are exactly ["c", "d"], and
reordering the prior list does not change the result. -/
theorem newItems_membership_order_witness :
    "c" ∈ newItems ["b", "a"] ["a", "c", "b", "d"] ∧
    newItems ["a", "b"] ["a", "c", "b", "d"] = newItems ["b", "a"] ["a", "c", "b", "d"] :=
  ⟨((newItems_membership_order ["b", "a"] ["a", "c", "b", "d"]).1 "c").mpr (by decide),
   (newItems_membership_order ["b", "a"] ["a", "c", "b", "d"]).2.2 ["a", "b"]
     (fun x => by simp [or_comm])⟩

/-!
Acquisition retry (C3).  part_001 lines 102-114 (`scrapeStockCount`) and
monitor.js lines 167-177 (`scrapeCategory`) share the same retry shape:
attempt the scrape; on failure, if `retryCount < maxRetries`, wait
`retryDelay` and recurse with `retryCount + 1`, otherwise rethrow the
error of the final attempt.  The outcome of each individual attempt is
modelled by an oracle `attempt : Nat → Except E S` indexed by the attempt
number, and the instrumented result additionally records how many attempts
were performed and the list of backoff waits taken between them.
-/

/-- Result of an acquisition with retry: the surfaced outcome, the number
of attempts actually performed, and the waits (in ms) inserted between
consecutive attempts. -/
structure RetryResult (E S : Type) where
  result : Except E S
  attempts : Nat
  waits : List Nat

/-- part_001 lines 102-114: `scrapeStockCount(retryCount)` — try the
attempt; on error, if `retryCount < maxRetries`, wait `retryDelay` and
recurse with `retryCount + 1`; otherwise propagate the error unchanged. -/
def scrapeStockCount {E S : Type} (attempt : Nat → Except E S)
    (maxRetries retryDelay retryCount : Nat) : RetryResult E S :=
  match attempt retryCount with
  | Except.ok s => ⟨Except.ok s, 1, []⟩
  | Except.error e =>
    if retryCount < maxRetries then
      let rest := scrapeStockCount attempt maxRetries retryDelay (retryCount + 1)
      ⟨rest.result, rest.attempts + 1, retryDelay :: rest.waits⟩
    else
      ⟨Except.error e, 1, []⟩
termination_by maxRetries - retryCount
decreasing_by omega

/-- Helper for C3: when every attempt from `r` through `maxRetries` fails,
the recursion performs all remaining attempts, waits the fixed delay
between each pair, and surfaces the error of the final attempt. -/
theorem scrapeStockCount_fail_all {E S : Type} (attempt : Nat → Except E S)
    (m d r : Nat) (hr : r ≤ m)
    (hfail : ∀ j, r ≤ j → j ≤ m → ∃ e, attempt j = Except.error e)
    (e : E) (hlast : attempt m = Except.error e) :
    scrapeStockCount attempt m d r =
      ⟨Except.error e, m + 1 - r, List.replicate (m - r) d⟩ := by
  obtain ⟨e0, he0⟩ := hfail r le_rfl hr
  rw [scrapeStockCount, he0]
  dsimp only
  by_cases h : r < m
  · rw [if_pos h]
    have ih := scrapeStockCount_fail_all attempt m d (r + 1) h
      (fun j h1 h2 => hfail j (by omega) h2) e hlast
    rw [ih]
    simp only [RetryResult.mk.injEq]
    refine ⟨by trivial, by omega, ?_⟩
    rw [show m - r = (m - (r + 1)) + 1 by omega, List.replicate_succ]
  · rw [if_neg h]
    have hrm : r = m := by omega
    subst hrm
    rw [he0] at hlast
    cases hlast
    simp only [RetryResult.mk.injEq]
    refine ⟨by trivial, by omega, ?_⟩
    rw [show r - r = 0 by omega, List.replicate_zero]
termination_by m - r
decreasing_by omega

/-- Helper for C3: when attempt `k` is the first success at or after `r`
and `k` is within the retry bound, the recursion stops at attempt `k` with
its snapshot, having waited once between each pair of attempts. -/
theorem scrapeStockCount_first_success {E S : Type} (attempt : Nat → Except E S)
    (m d r k : Nat) (s : S) (hrk : r ≤ k) (hkm : k ≤ m)
    (hok : attempt k = Except.ok s)
    (hfail : ∀ j, r ≤ j → j < k → ∃ e, attempt j = Except.error e) :
    scrapeStockCount attempt m d r =
      ⟨Except.ok s, k + 1 - r, List.replicate (k - r) d⟩ := by
  by_cases hr : r = k
  · subst hr
    rw [scrapeStockCount, hok]
    simp only [RetryResult.mk.injEq]
    refine ⟨by trivial, by omega, ?_⟩
    rw [show r - r = 0 by omega, List.replicate_zero]
  · have hlt : r < k := by omega
    obtain ⟨e0, he0⟩ := hfail r le_rfl hlt
    rw [scrapeStockCount, he0]
    dsimp only
    rw [if_pos (by omega : r < m)]
    have ih := scrapeStockCount_first_success attempt m d (r + 1) k s
      (by omega) hkm hok (fun j h1 h2 => hfail j (by omega) h2)
    rw [ih]
    simp only [RetryResult.mk.injEq]
    refine ⟨by trivial, by omega, ?_⟩
    rw [show k - r = (k - (r + 1)) + 1 by omega, List.replicate_succ]
termination_by k - r
decreasing_by omega

/-- C3: starting from attempt 0, if the first successful attempt `k` lies
within the bound then acquisition returns that attempt's snapshot with no
error, after `k + 1` attempts and `k` fixed-delay waits; if all
`maxRetries + 1` attempts fail, exactly `maxRetries + 1` attempts are made
with `maxRetries` fixed-delay waits between them and the error of the last
attempt is propagated unchanged. -/
theorem scrapeStockCount_retry_contract {E S : Type} (attempt : Nat → Except E S)
    (m d : Nat) :
    (∀ k s, k ≤ m → attempt k = Except.ok s →
      (∀ j, j < k → ∃ e, attempt j = Except.error e) →
      scrapeStockCount attempt m d 0 =
        ⟨Except.ok s, k + 1, List.replicate k d⟩) ∧
    (∀ e, (∀ j, j ≤ m → ∃ e2, attempt j = Except.error e2) →
      attempt m = Except.error e →
      scrapeStockCount attempt m d 0 =
        ⟨Except.error e, m + 1, List.replicate m d⟩) := by
  constructor
  · intro k s hkm hok hfail
    have := scrapeStockCount_first_success attempt m d 0 k s (Nat.zero_le _) hkm hok
      (fun j _ h2 => hfail j h2)
    simpa using this
  · intro e hfail hlast
    have := scrapeStockCount_fail_all attempt m d 0 (Nat.zero_le _)
      (fun j _ h2 => hfail j h2) e hlast
    simpa using this

/-- Concrete instance of C3 with `maxRetries = 2`: a source failing on
attempts 0 and 1 and succeeding on attempt 2 yields the attempt-2 snapshot
after 3 attempts and 2 waits of the fixed delay; a source failing on every
attempt surfaces the final error after exactly 3 attempts and 2 waits. -/
theorem scrapeStockCount_retry_contract_witness :
    scrapeStockCount (fun j => if j < 2 then Except.error j else Except.ok 99) 2 5 0 =
      ⟨Except.ok 99, 3, List.replicate 2 5⟩ ∧
    scrapeStockCount (fun j : Nat => (Except.error j : Except Nat Nat)) 2 5 0 =
      ⟨Except.error 2, 3, List.replicate 2 5⟩ :=
  ⟨(scrapeStockCount_retry_contract (fun j => if j < 2 then Except.error j else Except.ok 99) 2 5).1
      2 99 (by omega) rfl
      (fun j hj => ⟨j, if_pos hj⟩),
   (scrapeStockCount_retry_contract (fun j : Nat => (Except.error j : Except Nat Nat)) 2 5).2
      2 (fun j _ => ⟨j, rfl⟩) rfl⟩

/-!
Snapshot store (C5, C6).  The snapshot file `stock.json` is modelled as
`Option (List Char)` (`none` = the file does not exist, `some cs` = its
contents), and `JSON.parse` as an oracle `parse : List Char → Except String M`
(a corrupt file is precisely one on which the parser fails).

monitor.js lines 51-58 wrap the read in try/catch and return `{}` both
when the file is missing and when parsing throws.  The variant at
part_000 lines 340-343 has no try/catch: it returns `{}` only when the
file is missing and lets the `JSON.parse` exception escape.

All variants implement `saveSnapshot` (monitor.js lines 60-62, part_000
lines 345-347) as a single `fs.writeFileSync(CONFIG.snapshotFile, ...)`
straight to the target path: `writeFileSync` truncates and then writes, so
a crash mid-save can leave any prefix of the new contents on disk.
-/

/-- The persisted mapping decoded from `stock.json`: category key to
stored snapshot. -/
def SnapMap : Type := List (String × Snap)

namespace MonitorA

/-- monitor.js lines 51-58: `loadSnapshot` returns `{}` when the file does
not exist, parses it otherwise, and the surrounding try/catch turns any
parse exception into `{}` as well. -/
def loadSnapshot (parse : List Char → Except String SnapMap)
    (file : Option (List Char)) : SnapMap :=
  match file with
  | none => []
  | some contents =>
    match parse contents with
    | Except.ok m => m
    | Except.error _ => []

end MonitorA

namespace Gated

/-- part_000 lines 340-343 (second program): `loadSnapshot` returns `{}`
when the file does not exist and otherwise returns `JSON.parse(...)`
directly, with no try/catch — a parse exception propagates to the caller. -/
def loadSnapshot (parse : List Char → Except String SnapMap)
    (file : Option (List Char)) : Except String SnapMap :=
  match file with
  | none => Except.ok []
  | some contents => parse contents

end Gated

/-- C5 counterexample: in the part_000 gated variant, loading an existing
but unparseable snapshot file propagates the parse error instead of
returning the empty mapping, so `load()` does not return a mapping for
every file state. -/
theorem gated_loadSnapshot_corrupt_raises :
    Gated.loadSnapshot (fun _ => Except.error "SyntaxError") (some ['!']) =
      Except.error "SyntaxError" := rfl

/-- C5 (amended): the monitor.js `loadSnapshot` never raises — it returns
the empty mapping when the file is missing or when parsing fails, and the
parsed mapping otherwise — but the part_000 gated variant returns the
empty mapping only for a missing file and propagates the parser's outcome,
error included, whenever the file exists. -/
theorem loadSnapshot_error_handling (parse : List Char → Except String SnapMap) :
    (MonitorA.loadSnapshot parse none = []) ∧
    (∀ c e, parse c = Except.error e → MonitorA.loadSnapshot parse (some c) = []) ∧
    (∀ c m, parse c = Except.ok m → MonitorA.loadSnapshot parse (some c) = m) ∧
    (Gated.loadSnapshot parse none = Except.ok []) ∧
    (∀ c, Gated.loadSnapshot parse (some c) = parse c) := by
  refine ⟨rfl, fun c e h => ?_, fun c m h => ?_, rfl, fun c => rfl⟩
  · simp [MonitorA.loadSnapshot, h]
  · simp [MonitorA.loadSnapshot, h]

/-- Concrete instance of the amended C5 statement: with a parser that
rejects everything, the monitor.js load of an existing corrupt file still
returns the empty mapping. -/
theorem loadSnapshot_error_handling_witness :
    MonitorA.loadSnapshot (fun _ => Except.error "SyntaxError") (some ['!']) = [] :=
  (loadSnapshot_error_handling (fun _ => Except.error "SyntaxError")).2.1
    ['!'] "SyntaxError" rfl

/-- Name of the persisted snapshot file (`CONFIG.snapshotFile`). -/
def snapshotFile : String := "stock.json"

/-- monitor.js lines 60-62: `saveSnapshot(data)` is a single direct
`writeFileSync` of the serialized mapping to the snapshot path — this pair
records the target path and the bytes written. -/
def saveWrite (data : List Char) : String × List Char := (snapshotFile, data)

/-- The on-disk snapshot file after `saveSnapshot` runs to completion: the
direct write replaces the previous contents wholesale. -/
def runSave (data : List Char) : Option (List Char) := some data

/-- All on-disk states of the snapshot file observable if the process
crashes during `saveSnapshot`: either the write has not started (the old
contents survive) or `writeFileSync` has truncated the file and written
some prefix of the new contents. -/
def saveCrashStates (old : Option (List Char)) (data : List Char) :
    List (Option (List Char)) :=
  old :: (List.range (data.length + 1)).map (fun k => some (data.take k))

/-- C6 counterexample: saving contents "NEW" over old contents "OLD" can,
on a crash mid-write, leave the file holding just "N" — a reachable
on-disk state that is neither the complete old mapping nor the complete
new one, so the save is not atomic with respect to process crash. -/
theorem saveSnapshot_crash_midstate :
    some ['N'] ∈ saveCrashStates (some ['O', 'L', 'D']) ['N', 'E', 'W'] ∧
    some ['N'] ≠ some ['O', 'L', 'D'] ∧
    some ['N'] ≠ some ['N', 'E', 'W'] := by
  refine ⟨?_, by decide, by decide⟩
  simp only [saveCrashStates, List.mem_cons, List.mem_map, List.mem_range]
  exact Or.inr ⟨1, by decide, rfl⟩

/-- C6 (amended): `saveSnapshot` performs a full overwrite by writing the
serialized mapping directly to the snapshot path (no temp file, no
rename); run to completion it leaves exactly the new contents, but it is
not crash-atomic — whenever the new contents are nonempty and the old file
was not empty, the truncated (empty) file is a reachable crash state that
is neither the old nor the new contents. -/
theorem saveSnapshot_direct_write_not_atomic (old : Option (List Char))
    (data : List Char) (h1 : data ≠ []) (h2 : old ≠ some []) :
    saveWrite data = (snapshotFile, data) ∧
    runSave data = some data ∧
    some [] ∈ saveCrashStates old data ∧
    some ([] : List Char) ≠ old ∧
    some ([] : List Char) ≠ some data := by
  refine ⟨rfl, rfl, ?_, fun h => h2 h.symm, fun h => h1 (Option.some.inj h).symm⟩
  simp only [saveCrashStates, List.mem_cons, List.mem_map, List.mem_range]
  exact Or.inr ⟨0, by omega, by simp⟩

/-- Concrete instance of the amended C6 statement, at old contents "OLD"
and new contents "NEW". -/
theorem saveSnapshot_direct_write_not_atomic_witness :
    runSave ['N', 'E', 'W'] = some ['N', 'E', 'W'] ∧
    some [] ∈ saveCrashStates (some ['O', 'L', 'D']) ['N', 'E', 'W'] :=
  ⟨(saveSnapshot_direct_write_not_atomic (some ['O', 'L', 'D']) ['N', 'E', 'W']
      (by decide) (by decide)).2.1,
   (saveSnapshot_direct_write_not_atomic (some ['O', 'L', 'D']) ['N', 'E', 'W']
      (by decide) (by decide)).2.2.1⟩

/-!
Notification chunking (C7).  monitor.js lines 355-375 (second program):
`sendTelegram(text)` slices the message into pieces of at most
`MAX_LEN = 3800` code units (`for (let i = 0; i < text.length; i += MAX_LEN)
chunks.push(text.slice(i, i + MAX_LEN))`), then posts each chunk in order,
sleeping 400 ms after each post.  The message is modelled as `List Char`
and the dispatch as the ordered event trace of posts and waits.
-/

/-- Transport chunk limit, monitor.js line 357 (`const MAX_LEN = 3800`). -/
def MAX_LEN : Nat := 3800

/-- monitor.js lines 359-362: the chunk list produced by repeatedly
slicing off the next `MAX_LEN` code units until the text is exhausted. -/
def telegramChunks (text : List Char) : List (List Char) :=
  if text = [] then []
  else text.take MAX_LEN :: telegramChunks (text.drop MAX_LEN)
termination_by text.length
decreasing_by
  simp only [List.length_drop, MAX_LEN]
  have : text.length ≠ 0 := by
    simpa [List.length_eq_zero] using (by assumption : ¬text = [])
  omega

/-- One step of the dispatch loop, monitor.js lines 364-372: either an
HTTP post of one chunk or the fixed pacing sleep. -/
inductive TgEvent where
  | post (chunk : List Char)
  | wait (ms : Nat)
  deriving DecidableEq, Repr

/-- monitor.js lines 364-372: for each chunk in order, post it and then
wait 400 ms. -/
def sendTelegram (text : List Char) : List TgEvent :=
  ((telegramChunks text).map (fun c => [TgEvent.post c, TgEvent.wait 400])).flatten

/-- The chunks actually posted by a dispatch trace, in order. -/
def posts (evs : List TgEvent) : List (List Char) :=
  evs.filterMap (fun e =>
    match e with
    | TgEvent.post c => some c
    | TgEvent.wait _ => none)

/-- Helper for C7: the chunks concatenate back to the original message. -/
theorem telegramChunks_flatten (text : List Char) :
    (telegramChunks text).flatten = text := by
  rw [telegramChunks.eq_def]
  by_cases h : text = []
  · simp [h]
  · rw [if_neg h]
    have ih := telegramChunks_flatten (text.drop MAX_LEN)
    simp [List.flatten, ih]
termination_by text.length
decreasing_by
  simp only [List.length_drop, MAX_LEN]
  have : text.length ≠ 0 := by simpa [List.length_eq_zero] using h
  omega

/-- Helper for C7: every chunk respects the transport limit. -/
theorem telegramChunks_length_le (text : List Char) :
    ∀ c ∈ telegramChunks text, c.length ≤ MAX_LEN := by
  intro c hc
  rw [telegramChunks.eq_def] at hc
  by_cases h : text = []
  · simp [h] at hc
  · rw [if_neg h] at hc
    rcases List.mem_cons.mp hc with h1 | h1
    · subst h1
      exact List.length_take_le _ _
    · exact telegramChunks_length_le (text.drop MAX_LEN) c h1
termination_by text.length
decreasing_by
  simp only [List.length_drop, MAX_LEN]
  have : text.length ≠ 0 := by simpa [List.length_eq_zero] using h
  omega

/-- Helper for C7: the dispatch trace posts exactly the chunk list, in
order. -/
theorem posts_sendTelegram (text : List Char) :
    posts (sendTelegram text) = telegramChunks text := by
  unfold sendTelegram posts
  induction telegramChunks text with
  | nil => rfl
  | cons c rest ih => simpa [List.filterMap_append] using ih

/-- Helper for C7: chunking a 9000-character message yields exactly three
chunks of lengths 3800, 3800 and 1400. -/
theorem telegramChunks_9000 :
    telegramChunks (List.replicate 9000 'a') =
      [List.replicate 3800 'a', List.replicate 3800 'a', List.replicate 1400 'a'] := by
  have h1 : (List.replicate 9000 'a').take MAX_LEN = List.replicate 3800 'a' := by
    rw [List.take_replicate]
    congr 1
  have h2 : (List.replicate 9000 'a').drop MAX_LEN = List.replicate 5200 'a' := by
    rw [List.drop_replicate]
    congr 1
  have h3 : (List.replicate 5200 'a').take MAX_LEN = List.replicate 3800 'a' := by
    rw [List.take_replicate]
    congr 1
  have h4 : (List.replicate 5200 'a').drop MAX_LEN = List.replicate 1400 'a' := by
    rw [List.drop_replicate]
    congr 1
  have h5 : (List.replicate 1400 'a').take MAX_LEN = List.replicate 1400 'a' := by
    rw [List.take_replicate]
    congr 1
  have h6 : (List.replicate 1400 'a').drop MAX_LEN = ([] : List Char) := by
    rw [List.drop_replicate]
    congr 1
  have hne : ∀ n : Nat, 0 < n → List.replicate n 'a' ≠ ([] : List Char) := by
    intro n hn
    exact List.ne_nil_of_length_pos (by simpa using hn)
  rw [telegramChunks.eq_def, if_neg (hne 9000 (by norm_num)), h1, h2]
  rw [telegramChunks.eq_def, if_neg (hne 5200 (by norm_num)), h3, h4]
  rw [telegramChunks.eq_def, if_neg (hne 1400 (by norm_num)), h5, h6]
  rw [telegramChunks.eq_def, if_pos rfl]

/-- C7: dispatch splits the message into consecutive chunks of length at
most the 3800-character limit whose concatenation is the original message,
posts them strictly in message order (each post followed by the fixed
400 ms pacing wait), and a 9000-character message goes out as exactly
three chunks of lengths 3800, 3800, 1400. -/
theorem sendTelegram_chunking_spec (text : List Char) :
    ((telegramChunks text).flatten = text) ∧
    (∀ c ∈ telegramChunks text, c.length ≤ 3800) ∧
    (posts (sendTelegram text) = telegramChunks text) ∧
    (sendTelegram text =
      ((telegramChunks text).map (fun c => [TgEvent.post c, TgEvent.wait 400])).flatten) ∧
    ((telegramChunks (List.replicate 9000 'a')).map List.length =
      [3800, 3800, 1400]) := by
  refine ⟨telegramChunks_flatten text, ?_, posts_sendTelegram text, rfl, ?_⟩
  · exact fun c hc => telegramChunks_length_le text c hc
  · rw [telegramChunks_9000]
    simp only [List.map_cons, List.map_nil, List.length_replicate]

/-- Concrete instance of C7: a one-character message goes out as a single
chunk equal to the message, whose length is within the limit. -/
theorem sendTelegram_chunking_spec_witness :
    (telegramChunks ['h']).flatten = ['h'] ∧ (['h'] : List Char).length ≤ 3800 := by
  have hchunk : telegramChunks ['h'] = [['h']] := by
    rw [telegramChunks.eq_def, if_neg (by decide)]
    rw [List.take_of_length_le (by norm_num [MAX_LEN])]
    rw [List.drop_eq_nil_of_le (by norm_num [MAX_LEN])]
    rw [telegramChunks.eq_def, if_pos rfl]
  exact ⟨(sendTelegram_chunking_spec ['h']).1,
    (sendTelegram_chunking_spec ['h']).2.1 ['h'] (by rw [hchunk]; exact List.mem_singleton.mpr rfl)⟩

/-!
Cycle orchestration.

C2 targets the two non-single-flight variants: monitor.js lines 203-205
(first program, sequential `await scrapeCategory(category)` inside the
loop) and lines 496-498 (second program, `Promise.all` over both
categories).  In both, a category that exhausts its retries makes the
whole `runOnce` reject before `saveSnapshot` or any message dispatch is
reached.  The second program is embedded below: `runOnce` takes the
per-category acquisition outcome (the result of `scrapeCategory` after
its internal retries) and the previously persisted store, and returns
either the rejection or the pair (new store, whether the threshold alert
fired).

C9 and C10 target part_000's first program (lines 200-264): `runOnce`
returns immediately while `isRunning` is set, otherwise sets the flag,
scrapes the categories sequentially, and in a `finally` clears the flag on
both the success path (summary sent, store replaced) and the error path
(error alert sent, store untouched).
-/

namespace MonitorB

/-- monitor.js lines 326-351 (second program): the two configured
category keys, in order. -/
def categories : List String := ["MEN_ALL", "MEN_FILTERED"]

/-- monitor.js line 350: `filteredThreshold: 30`. -/
def filteredThreshold : Nat := 30

/-- `Promise.all`: resolves with all results when every promise resolves,
rejects with the first rejection otherwise. -/
def promiseAll {E A : Type} : List (Except E A) → Except E (List A)
  | [] => Except.ok []
  | Except.error e :: _ => Except.error e
  | Except.ok a :: xs =>
    match promiseAll xs with
    | Except.ok rest => Except.ok (a :: rest)
    | Except.error e => Except.error e

/-- monitor.js lines 482-595 (second program): one cycle.  All categories
are scraped via `Promise.all`; a rejection propagates out of `runOnce`
before any state is saved or any message sent.  On success the new store
holds every category's fresh snapshot, the threshold alert fires according
to `crossedUp` computed from the persisted previous filtered count, the
store is saved, and the routine update is sent.  The result is the saved
store paired with whether the alert fired. -/
def runOnce (scrape : String → Except String Snap)
    (store : List (String × Snap)) :
    Except String (List (String × Snap) × Bool) :=
  match promiseAll (categories.map scrape) with
  | Except.error e => Except.error e
  | Except.ok results =>
    let newStore := categories.zip results
    let filteredTotal :=
      (((categories.zip results).lookup "MEN_FILTERED").map Snap.totalItems).getD 0
    Except.ok (newStore,
      crossedUp filteredThreshold
        ((store.lookup "MEN_FILTERED").map Snap.totalItems) filteredTotal)

end MonitorB

/-- C2 counterexample: with category MEN_ALL exhausting its retries
(acquisition error) while MEN_FILTERED succeeds with 40 items, the cycle
does not complete: `runOnce` rejects, so the succeeded category's new
state is not persisted and no summary of any kind is dispatched. -/
theorem monitorB_partial_failure_aborts :
    MonitorB.runOnce
      (fun k => if k = "MEN_ALL" then Except.error "AcquisitionError"
                else Except.ok ⟨40, []⟩)
      [("MEN_ALL", ⟨5, []⟩)] =
      Except.error "AcquisitionError" := rfl

/-- C2 (amended): the cycle is all-or-nothing, not isolated per category:
if any configured category's acquisition fails (after its retries), the
whole cycle aborts with that error and nothing is persisted or dispatched;
only when every category succeeds does the cycle complete, persisting a
store with a fresh entry for every category in configuration order. -/
theorem monitorB_runOnce_all_or_nothing (scrape : String → Except String Snap)
    (store : List (String × Snap)) :
    ((∃ k, k ∈ MonitorB.categories ∧ ∃ e, scrape k = Except.error e) →
      ∃ e, MonitorB.runOnce scrape store = Except.error e) ∧
    (∀ s1 s2, scrape "MEN_ALL" = Except.ok s1 → scrape "MEN_FILTERED" = Except.ok s2 →
      ∃ alertFired, MonitorB.runOnce scrape store =
        Except.ok ([("MEN_ALL", s1), ("MEN_FILTERED", s2)], alertFired)) := by
  constructor
  · rintro ⟨k, hk, e, he⟩
    cases hA : scrape "MEN_ALL" with
    | error eA =>
      exact ⟨eA, by simp [MonitorB.runOnce, MonitorB.categories, MonitorB.promiseAll, hA]⟩
    | ok sA =>
      have hkF : k = "MEN_FILTERED" := by
        simp only [MonitorB.categories, List.mem_cons, List.not_mem_nil, or_false] at hk
        rcases hk with h | h
        · subst h; rw [hA] at he; cases he
        · exact h
      subst hkF
      cases hF : scrape "MEN_FILTERED" with
      | error eF =>
        exact ⟨eF, by simp [MonitorB.runOnce, MonitorB.categories, MonitorB.promiseAll, hA, hF]⟩
      | ok sF => rw [hF] at he; cases he
  · intro s1 s2 h1 h2
    refine ⟨crossedUp MonitorB.filteredThreshold
      ((store.lookup "MEN_FILTERED").map Snap.totalItems) s2.totalItems, ?_⟩
    simp [MonitorB.runOnce, MonitorB.categories, MonitorB.promiseAll, h1, h2, List.lookup]

/-- Concrete instance of the amended C2 statement: when both categories
succeed, the cycle completes and persists both fresh snapshots. -/
theorem monitorB_runOnce_all_or_nothing_witness :
    ∃ alertFired,
      MonitorB.runOnce (fun _ => Except.ok ⟨40, []⟩) [] =
        Except.ok ([("MEN_ALL", ⟨40, []⟩), ("MEN_FILTERED", ⟨40, []⟩)], alertFired) :=
  (monitorB_runOnce_all_or_nothing (fun _ => Except.ok ⟨40, []⟩) []).2
    ⟨40, []⟩ ⟨40, []⟩ rfl rfl

namespace SingleFlight

/-- part_000 lines 36-57 (first program): the two configured category
keys, in order. -/
def categories : List String := ["MEN_ALL", "MEN_FILTERED"]

/-- Observable state of the part_000 single-flight monitor: the module
flag `isRunning` (line 20), the persisted snapshot store (key to stored
`totalItems`), and counters for the messages dispatched and the category
acquisitions performed. -/
structure World where
  isRunning : Bool
  store : List (String × Nat)
  sent : Nat
  scrapes : Nat
  deriving DecidableEq, Repr

/-- part_000 lines 215-243: the sequential category loop.  Each category
is acquired in order (one acquisition per category, its internal retries
already folded into the oracle's outcome); the first failure aborts the
loop with that error.  Returns how many acquisitions were performed and
either the fresh store entries or the error. -/
def runCats (scrape : String → Except String Nat) :
    List String → Nat × Except String (List (String × Nat))
  | [] => (0, Except.ok [])
  | k :: rest =>
    match scrape k with
    | Except.error e => (1, Except.error e)
    | Except.ok n =>
      match runCats scrape rest with
      | (c, Except.ok tail) => (c + 1, Except.ok ((k, n) :: tail))
      | (c, Except.error e) => (c + 1, Except.error e)

/-- part_000 lines 200-264: `runOnce`.  If `isRunning` is set the trigger
is dropped and the function returns at once (lines 201-204).  Otherwise
the flag is set, the categories are scraped sequentially; on success the
new snapshot replaces the store and the summary is sent (one message); on
failure the store is left untouched and error alerts are sent (one from
`scrapeCategory` line 184 and one from the catch at line 260); the
`finally` at line 262 clears the flag on both paths. -/
def runOnce (scrape : String → Except String Nat) (w : World) : World :=
  if w.isRunning then w
  else
    match runCats scrape categories with
    | (c, Except.ok newSnap) =>
      { isRunning := false, store := newSnap, sent := w.sent + 1,
        scrapes := w.scrapes + c }
    | (c, Except.error _) =>
      { isRunning := false, store := w.store, sent := w.sent + 2,
        scrapes := w.scrapes + c }

end SingleFlight

/-- C9: a trigger that arrives while the previous cycle is still running
(`isRunning = true`) is dropped with no effect: `runOnce` returns the
state unchanged — no acquisition is performed, nothing is dispatched, and
the persisted store is untouched. -/
theorem runOnce_skip_when_running (scrape : String → Except String Nat)
    (w : SingleFlight.World) (h : w.isRunning = true) :
    SingleFlight.runOnce scrape w = w ∧
    (SingleFlight.runOnce scrape w).scrapes = w.scrapes ∧
    (SingleFlight.runOnce scrape w).sent = w.sent ∧
    (SingleFlight.runOnce scrape w).store = w.store := by
  have heq : SingleFlight.runOnce scrape w = w := by
    simp [SingleFlight.runOnce, h]
  exact ⟨heq, by rw [heq], by rw [heq], by rw [heq]⟩

/-- Concrete instance of C9: a trigger during a running cycle leaves the
world exactly as it was. -/
theorem runOnce_skip_when_running_witness :
    SingleFlight.runOnce (fun _ => Except.ok 7)
        ⟨true, [("MEN_ALL", 5)], 3, 4⟩ =
      ⟨true, [("MEN_ALL", 5)], 3, 4⟩ :=
  (runOnce_skip_when_running (fun _ => Except.ok 7)
    ⟨true, [("MEN_ALL", 5)], 3, 4⟩ rfl).1

/-- C10: every invocation that actually starts a cycle
(`isRunning = false` at entry) ends with the flag cleared, for every
acquisition outcome — the reset sits in the `finally`, so both the success
path and the error path clear it and later triggers are never starved. -/
theorem runOnce_resets_running_flag (scrape : String → Except String Nat)
    (w : SingleFlight.World) (h : w.isRunning = false) :
    (SingleFlight.runOnce scrape w).isRunning = false := by
  rw [SingleFlight.runOnce, h]
  rcases hr : SingleFlight.runCats scrape SingleFlight.categories with ⟨c, r⟩
  cases r <;> simp

/-- Concrete instance of C10 on both paths: an all-failing cycle and an
all-succeeding cycle both clear the running flag. -/
theorem runOnce_resets_running_flag_witness :
    (SingleFlight.runOnce (fun _ => Except.error "AcquisitionError")
        ⟨false, [("MEN_ALL", 5)], 3, 4⟩).isRunning = false ∧
    (SingleFlight.runOnce (fun _ => Except.ok 7)
        ⟨false, [("MEN_ALL", 5)], 3, 4⟩).isRunning = false :=
  ⟨runOnce_resets_running_flag (fun _ => Except.error "AcquisitionError")
      ⟨false, [("MEN_ALL", 5)], 3, 4⟩ rfl,
   runOnce_resets_running_flag (fun _ => Except.ok 7)
      ⟨false, [("MEN_ALL", 5)], 3, 4⟩ rfl⟩
